import Mathlib

/-!
Verification development for the agent-sandbox repository.

Shallow embedding of the session-orchestration and result-lifecycle core:
the git workspace / diff collection (`src/result_collector.py`, `src/diff.py`,
flat `agent.py`), the request persistence layer (`src/diff_db.py`,
flat `database.py`, `src/db.py`, `src/result_db.py`, `src/agent_db.py`),
the session manager control flow (`src/agent.py`, flat `agent.py`), the
file-tail log producer (`src/workspace.py`), the document collector
(`src/result_collector.py`), name generation, and the two tool-event log
writers (`database.py` vs `src/log_db.py`).
-/

namespace AgentSandbox

/-! ## Git workspace model

A tree (commit content, index content, or working tree content) is a list
of (path, file content) pairs, looked up by path.  `git diff X Y` output is
abstracted to the list of per-file changes: `(path, old content?, new
content?)` for every path (drawn from a given path set) whose content
differs between the two trees.  The empty diff text corresponds to `[]`. -/

abbrev Tree := List (String × String)

/-- One file-level entry of a diff: path, old content, new content. -/
abbrev DiffEntry := String × Option String × Option String

/-- Paths of the files recorded in a tree. -/
def treeKeys (t : Tree) : List String := t.map Prod.fst

/-- A session workspace as git sees it: the `HEAD` commit tree, the index
(staging area), and the working tree.  Right after `git clone` all three
agree. -/
structure GitWorkspace where
  head : Tree
  index : Tree
  worktree : Tree
deriving DecidableEq, Repr

/-- File-level diff between two trees, over a given list of candidate
paths: every path whose content differs contributes one entry. -/
def diffEntries (a b : Tree) (paths : List String) : List DiffEntry :=
  (paths.filter fun f => a.lookup f != b.lookup f).map fun f =>
    (f, a.lookup f, b.lookup f)

/-- Output of plain `git diff` (no arguments): index vs working tree,
restricted to paths tracked in the index.  Untracked files never appear.
This is the command `DiffManager.generate_diff` runs (`src/diff.py`). -/
def gitDiffUnstaged (ws : GitWorkspace) : List DiffEntry :=
  diffEntries ws.index ws.worktree (treeKeys ws.index).dedup

/-- Output of `git diff HEAD`: `HEAD` vs working tree over tracked paths
(paths known to `HEAD` or the index); untracked files never appear.  This
is the command the flat-layout `AgentManager._generate_diff` runs. -/
def gitDiffHead (ws : GitWorkspace) : List DiffEntry :=
  diffEntries ws.head ws.worktree ((treeKeys ws.head ++ treeKeys ws.index).dedup)

/-- Output of `git diff --cached`: `HEAD` vs index over all paths known to
either. -/
def gitDiffCached (ws : GitWorkspace) : List DiffEntry :=
  diffEntries ws.head ws.index ((treeKeys ws.head ++ treeKeys ws.index).dedup)

/-- Effect of `git add .` run at the workspace root: the index becomes the
working tree (new files staged, modifications staged, deletions staged). -/
def gitAddAll (ws : GitWorkspace) : GitWorkspace :=
  { ws with index := ws.worktree }

/-- Fuel-driven worker for `globMatch`; the fuel only bounds the recursion
depth so that the definition is structural (and therefore evaluates inside
the kernel), it never runs out on the fuel `globMatch` supplies. -/
def globMatchAux : Nat → List Char → List Char → Bool
  | 0, _, _ => false
  | _ + 1, [], s => s.isEmpty
  | fuel + 1, '*' :: ps, [] => globMatchAux fuel ps []
  | fuel + 1, '*' :: ps, c :: ss =>
      globMatchAux fuel ps (c :: ss) || globMatchAux fuel ('*' :: ps) ss
  | _ + 1, _ :: _, [] => false
  | fuel + 1, p :: ps, c :: ss => (p == c) && globMatchAux fuel ps ss

/-- Glob matching for a shell-style pattern over a path: `*` matches any
character sequence, every other character matches itself (the fragment of
`Path.glob` / git pathspec matching the code relies on).  Each recursive
step shortens the pattern or the path, so `|pattern| + |path| + 1` fuel
always suffices. -/
def globMatch (p s : List Char) : Bool :=
  globMatchAux (p.length + s.length + 1) p s

/-- Effect of `git add <pattern>` for one pattern: index entries whose path
matches the pattern are replaced by the matching working-tree entries
(staging modifications, additions and deletions under the pattern). -/
def gitAddPattern (ws : GitWorkspace) (pat : String) : GitWorkspace :=
  { ws with index :=
      ws.index.filter (fun e => !globMatch pat.data e.1.data) ++
      ws.worktree.filter (fun e => globMatch pat.data e.1.data) }

/-- The set of file modifications present in a workspace: every path whose
content differs between `HEAD` and the working tree (covering edits,
creations and deletions made by the agent). -/
def fileModifications (ws : GitWorkspace) : List DiffEntry :=
  diffEntries ws.head ws.worktree ((treeKeys ws.head ++ treeKeys ws.worktree).dedup)

/-- `GitDiffCollector.collect` (`src/result_collector.py`): stage the given
file patterns — or, when the target list is `None` or empty (Python
truthiness of `target_files`), all changes via `git add .` — then emit the
staged diff `git diff --cached`.  Returns the diff together with the
workspace as the command sequence leaves it. -/
def gitDiffCollectorCollect (ws : GitWorkspace) (targets : Option (List String)) :
    List DiffEntry × GitWorkspace :=
  let ws' := match targets with
    | some ps => if ps.isEmpty then gitAddAll ws else ps.foldl gitAddPattern ws
    | none => gitAddAll ws
  (gitDiffCached ws', ws')

/-- The read-only run `DiffManager.generate_diff` performs against the
workspace (`src/diff.py`): it executes only `git diff`, which reads the
index and working tree and changes neither, and captures the stdout. -/
def generateDiffRun (ws : GitWorkspace) : List DiffEntry × GitWorkspace :=
  (gitDiffUnstaged ws, ws)

/-! ## Request persistence model

One row of the `requests` table (`src/diff_db.py` / flat `database.py`).
Statuses are the TEXT strings stored in the `diff_status` column; the
`DiffStatus` enum of the code has exactly the values `AGENT_RUNNING`,
`AGENT_COMPLETE` and `DONE`.  Diff content is the abstract diff of the git
model; `some []` is a saved empty diff, `none` is SQL NULL. -/

structure RequestRow where
  agent_name : String
  project : String
  goal : String
  started_at : Option String
  completed_at : Option String
  diff_status : String
  diff_content : Option (List DiffEntry)
  exit_code : Option Int
  error_message : Option String
deriving DecidableEq, Repr

/-- `DiffDatabase.save_diff` (`src/diff_db.py:65`): set `diff_content` to
the given diff and `diff_status` to `DONE`, touching nothing else. -/
def saveDiffRow (content : List DiffEntry) (row : RequestRow) : RequestRow :=
  { row with diff_content := some content, diff_status := "DONE" }

/-- `DiffDatabase.update_request_status` (`src/diff_db.py:39`): always set
`diff_status`; set `completed_at` to the current time exactly when the new
status is `AGENT_COMPLETE`; set `exit_code` / `error_message` only when a
value is supplied. -/
def updateRequestStatusRow (now : String) (status : String)
    (exitCode : Option Int) (errMsg : Option String) (row : RequestRow) :
    RequestRow :=
  { row with
    diff_status := status
    completed_at := if status = "AGENT_COMPLETE" then some now else row.completed_at
    exit_code := match exitCode with | some c => some c | none => row.exit_code
    error_message := match errMsg with | some m => some m | none => row.error_message }

/-- `DiffManager.generate_diff` (`src/diff.py:20`), persistence effect.
The git run either yields a diff or throws (`Except.error` carries the
exception text).  A non-empty diff is saved via `save_diff`; an empty diff
is saved as the empty string via `save_diff` too; on an exception the row
is updated to status `DONE` with an error message and the function returns
`False`. -/
def generateDiffPersist (now : String) (outcome : Except String (List DiffEntry))
    (row : RequestRow) : RequestRow × Bool :=
  match outcome with
  | .ok d => (saveDiffRow d row, true)
  | .error e =>
      (updateRequestStatusRow now "DONE" none
        (some ("Failed to generate diff: " ++ e)) row, false)

/-! ## Claim C1: diff-kind result collection -/

/-- A freshly cloned workspace whose only change is a new, untracked file
`hello.py` written by the agent. -/
def wsNewFileOnly : GitWorkspace :=
  { head := [("a.txt", "x")]
    index := [("a.txt", "x")]
    worktree := [("a.txt", "x"), ("hello.py", "def hello():\n    pass\n")] }

/-- A freshly cloned workspace in which the agent modified the tracked
file `a.txt`. -/
def wsTrackedEdit : GitWorkspace :=
  { head := [("a.txt", "x")]
    index := [("a.txt", "x")]
    worktree := [("a.txt", "y")] }

lemma mem_treeKeys_of_lookup_eq_some {t : Tree} {f v : String}
    (h : t.lookup f = some v) : f ∈ treeKeys t := by
  induction t with
  | nil => simp [List.lookup] at h
  | cons e tl ih =>
    rw [List.lookup] at h
    by_cases hf : f == e.1
    · simp only [treeKeys, List.map_cons]
      rw [eq_of_beq hf]
      exact List.mem_cons_self _ _
    · simp only [treeKeys, List.map_cons]
      rw [Bool.not_eq_true] at hf
      rw [hf] at h
      exact List.mem_cons_of_mem _ (ih h)

/-- C1, counterexample.  The workspace `wsNewFileOnly` contains a file
modification (the agent created `hello.py`), yet the content that the
cleanup path persists — the output of the plain `git diff` that
`DiffManager.generate_diff` runs — is empty, and differs from the staged
`git add` + `git diff --cached` output the claim prescribes (the flat
layout's `git diff HEAD` is just as empty). -/
theorem diff_result_claim_fails_on_new_file :
    fileModifications wsNewFileOnly ≠ [] ∧
    (generateDiffRun wsNewFileOnly).1 = [] ∧
    gitDiffHead wsNewFileOnly = [] ∧
    (gitDiffCollectorCollect wsNewFileOnly none).1 ≠ [] ∧
    (generateDiffRun wsNewFileOnly).1 ≠ (gitDiffCollectorCollect wsNewFileOnly none).1 := by
  refine ⟨by decide, by decide, by decide, by decide, by decide⟩

/-- C1, amended.  The persisted content is the output of plain `git diff`
(index vs working tree), produced without staging, so untracked new files
are omitted; collection runs no state-changing git command, hence a second
collection yields identical content; when at least one index-tracked file
has modified working-tree content the persisted content is non-empty.  The
staged `git add` + `git diff --cached` behaviour of the claim holds only
for `GitDiffCollector.collect`, which stages everything and therefore
reports exactly the `HEAD`-vs-working-tree modifications, idempotently. -/
theorem diff_result_collection_amended (ws : GitWorkspace)
    (h : ∃ f v, ws.index.lookup f = some v ∧ ws.index.lookup f ≠ ws.worktree.lookup f) :
    (generateDiffRun ws).1 = gitDiffUnstaged ws ∧
    (generateDiffRun (generateDiffRun ws).2).1 = (generateDiffRun ws).1 ∧
    (generateDiffRun ws).1 ≠ [] ∧
    (gitDiffCollectorCollect ws none).1 = fileModifications ws ∧
    (gitDiffCollectorCollect (gitDiffCollectorCollect ws none).2 none).1 =
      (gitDiffCollectorCollect ws none).1 := by
  refine ⟨rfl, rfl, ?_, ?_, ?_⟩
  · obtain ⟨f, v, hv, hne⟩ := h
    have hmem : f ∈ (treeKeys ws.index).dedup :=
      List.mem_dedup.mpr (mem_treeKeys_of_lookup_eq_some hv)
    have hf : f ∈ (treeKeys ws.index).dedup.filter
        (fun g => ws.index.lookup g != ws.worktree.lookup g) := by
      refine List.mem_filter.mpr ⟨hmem, ?_⟩
      simpa [bne] using hne
    show gitDiffUnstaged ws ≠ []
    intro hnil
    simp only [gitDiffUnstaged, diffEntries] at hnil
    have := List.mem_map_of_mem
      (fun g => (g, ws.index.lookup g, ws.worktree.lookup g)) hf
    rw [hnil] at this
    exact (List.not_mem_nil _) this
  · rfl
  · rfl

/-- C1 witness: the amended theorem applied to the concrete workspace
`wsTrackedEdit`, whose tracked file `a.txt` was modified. -/
theorem diff_result_collection_amended_witness :
    (generateDiffRun wsTrackedEdit).1 = gitDiffUnstaged wsTrackedEdit ∧
    (generateDiffRun (generateDiffRun wsTrackedEdit).2).1 = (generateDiffRun wsTrackedEdit).1 ∧
    (generateDiffRun wsTrackedEdit).1 ≠ [] ∧
    (gitDiffCollectorCollect wsTrackedEdit none).1 = fileModifications wsTrackedEdit ∧
    (gitDiffCollectorCollect (gitDiffCollectorCollect wsTrackedEdit none).2 none).1 =
      (gitDiffCollectorCollect wsTrackedEdit none).1 :=
  diff_result_collection_amended wsTrackedEdit ⟨"a.txt", "x", by decide, by decide⟩

/-! ## Claims C2 and C3: terminal statuses and status transitions -/

/-- The terminal statuses the specification names. -/
def isTerminalStatus (s : String) : Bool :=
  s == "DONE" || s == "DONE_AND_NONE" || s == "ERROR"

/-- A fresh `requests` row as `create_request` inserts it
(flat `database.py:73`): status `AGENT_RUNNING`, no content, no error. -/
def freshRequestRow (name project goal now : String) : RequestRow :=
  { agent_name := name, project := project, goal := goal
    started_at := some now, completed_at := none
    diff_status := "AGENT_RUNNING", diff_content := none
    exit_code := none, error_message := none }

/-- Row of a diff-kind session just before cleanup-time collection. -/
def rowBeforeCollection : RequestRow :=
  updateRequestStatusRow "t1" "AGENT_COMPLETE" (some 0) none
    (freshRequestRow "agent-20250101-120000" "proj" "goal" "t0")

/-- C2, counterexample.  A diff-kind session with no file changes: the
collector yields the empty diff, the persisted Result content is empty —
but the terminal status written by `save_diff` is `DONE`, not
`DONE_AND_NONE`; likewise a collector failure yields `DONE`, not `ERROR`. -/
theorem cleanup_status_claim_fails_on_empty_diff :
    (generateDiffPersist "t2" (.ok []) rowBeforeCollection).1.diff_content = some [] ∧
    (generateDiffPersist "t2" (.ok []) rowBeforeCollection).1.diff_status = "DONE" ∧
    "DONE" ≠ "DONE_AND_NONE" ∧
    (generateDiffPersist "t2" (.error "boom") rowBeforeCollection).1.diff_status = "DONE" ∧
    "DONE" ≠ "ERROR" := by
  refine ⟨rfl, rfl, by decide, rfl, by decide⟩

/-- C2, amended.  The terminal status set during cleanup after result
collection is always `DONE`: with the collected diff persisted (the empty
string when there were no changes), or — when the collector itself threw —
with the exception text recorded as the error message and the content left
untouched.  `DONE_AND_NONE` and `ERROR` are never produced by collection
(the status enum does not even contain them). -/
theorem cleanup_status_amended (now : String)
    (outcome : Except String (List DiffEntry)) (row : RequestRow) :
    (generateDiffPersist now outcome row).1.diff_status = "DONE" ∧
    (generateDiffPersist now outcome row).1.diff_content =
      (match outcome with | .ok d => some d | .error _ => row.diff_content) ∧
    (generateDiffPersist now outcome row).1.error_message =
      (match outcome with
        | .ok _ => row.error_message
        | .error e => some ("Failed to generate diff: " ++ e)) ∧
    (generateDiffPersist now outcome row).2 =
      (match outcome with | .ok _ => true | .error _ => false) := by
  cases outcome <;>
    simp [generateDiffPersist, saveDiffRow, updateRequestStatusRow]

/-- `AgentManager.restart_agent`'s status reset (`src/agent.py:192`): the
row is unconditionally put back to `AGENT_RUNNING` with content, exit code,
error message and completion time cleared, whatever status it had. -/
def restartResetRow (now : String) (row : RequestRow) : RequestRow :=
  { row with
    started_at := some now, completed_at := none
    diff_status := "AGENT_RUNNING", diff_content := none
    exit_code := none, error_message := none }

/-- Row of a session that has reached the terminal status `DONE` with a
saved diff. -/
def rowDone : RequestRow :=
  saveDiffRow [("hello.py", none, some "def hello():\n    pass\n")] rowBeforeCollection

/-- C3, counterexample.  `rowDone` is in a terminal status, yet
`restart_agent` moves it back to `AGENT_RUNNING` and clears its results:
status transitions do regress from a terminal state. -/
theorem terminal_status_regresses_under_restart :
    isTerminalStatus rowDone.diff_status = true ∧
    (restartResetRow "t3" rowDone).diff_status = "AGENT_RUNNING" ∧
    (restartResetRow "t3" rowDone).diff_status ≠ rowDone.diff_status ∧
    (restartResetRow "t3" rowDone).diff_content = none := by
  refine ⟨by decide, rfl, by decide, rfl⟩

/-- C3, amended.  No status writer guards against terminal states:
`update_request_status` stores whatever status it is given over any
current status, `save_diff` stores `DONE` unconditionally, and
`restart_agent` resets any row — terminal or not — to `AGENT_RUNNING`
with content, exit code and error message cleared.  Monotonicity from
terminal states is not enforced anywhere. -/
theorem status_transitions_unguarded (now status : String)
    (exitCode : Option Int) (errMsg : Option String)
    (content : List DiffEntry) (row : RequestRow) :
    (updateRequestStatusRow now status exitCode errMsg row).diff_status = status ∧
    (saveDiffRow content row).diff_status = "DONE" ∧
    (restartResetRow now row).diff_status = "AGENT_RUNNING" ∧
    (restartResetRow now row).diff_content = none ∧
    (restartResetRow now row).exit_code = none ∧
    (restartResetRow now row).error_message = none := by
  exact ⟨rfl, rfl, rfl, rfl, rfl, rfl⟩

/-! ## Claim C4: exception policy of `start_agent`

Each external step of a session run either succeeds or throws; an
`OrchestrationRun` fixes the outcome of every step, and the two
`start_agent` embeddings replay the control flow of `src/agent.py` (package
layout) and the flat `agent.py` on it.  The result records the final row,
the exception propagated to the caller (if any), and whether the
cleanup-and-collect phase ran. -/

structure OrchestrationRun where
  createWorkspace : Except String Unit
  setupSettings : Except String Unit
  buildImages : Except String Unit
  ensureNetwork : Except String Unit
  startProxy : Except String Unit
  createContainer : Except String Unit
  runContainer : Except String Int
deriving Repr

structure StartOutcome where
  row : RequestRow
  raised : Option String
  cleanupRan : Bool
deriving DecidableEq, Repr

/-- The phases executed before any container for the session exists:
workspace clone, settings, image builds, network, proxy. -/
def preContainerPhases (i : OrchestrationRun) : Except String Unit := do
  i.createWorkspace
  i.setupSettings
  i.buildImages
  i.ensureNetwork
  i.startProxy

/-- Exit-code recording of steps 6–7 shared by both layouts: status
`AGENT_COMPLETE` with the exit code, plus an error message on non-zero
exit (`src/agent.py:53` / flat `agent.py:252`). -/
def recordExit (now : String) (code : Int) (row : RequestRow) : RequestRow :=
  let row1 := updateRequestStatusRow now "AGENT_COMPLETE" (some code) none row
  if code = 0 then row1
  else
    updateRequestStatusRow now "AGENT_COMPLETE" (some code)
      (some ("Agent failed with exit code " ++ toString code)) row1

/-- Package-layout `AgentManager.start_agent` (`src/agent.py:42`): the
`try` block spans everything from workspace creation through container
execution; any exception is absorbed into `AGENT_COMPLETE` / exit `-1` /
the exception text, nothing is re-raised, and the `finally` always runs
`_cleanup_and_commit`. -/
def startAgentPkg (now : String) (i : OrchestrationRun) (row : RequestRow) :
    StartOutcome :=
  match (do preContainerPhases i; i.createContainer; i.runContainer :
      Except String Int) with
  | .ok code => { row := recordExit now code row, raised := none, cleanupRan := true }
  | .error e =>
      { row := updateRequestStatusRow now "AGENT_COMPLETE" (some (-1)) (some e) row
        raised := none, cleanupRan := true }

/-- Flat-layout `AgentManager.start_agent` (flat `agent.py:83`): workspace
clone, settings, image builds, network and proxy run before the `try`
block, so an exception there propagates to the caller, skips every status
update, and skips `_cleanup_and_commit` (which only runs after the
`try`/`finally`); the `try` block covers log-directory and container
creation and container execution, whose exceptions are absorbed exactly as
in the package layout, with cleanup still running. -/
def startAgentFlat (now : String) (i : OrchestrationRun) (row : RequestRow) :
    StartOutcome :=
  match preContainerPhases i with
  | .error e => { row := row, raised := some e, cleanupRan := false }
  | .ok _ =>
      match (do i.createContainer; i.runContainer : Except String Int) with
      | .ok code =>
          { row := recordExit now code row, raised := none, cleanupRan := true }
      | .error e =>
          { row := updateRequestStatusRow now "AGENT_COMPLETE" (some (-1)) (some e) row
            raised := none, cleanupRan := true }

/-- A run whose Docker image build throws before any container for the
session exists; every other step would succeed. -/
def runImageBuildFails : OrchestrationRun :=
  { createWorkspace := .ok (), setupSettings := .ok ()
    buildImages := .error "image build failed", ensureNetwork := .ok ()
    startProxy := .ok (), createContainer := .ok (), runContainer := .ok 0 }

/-- A freshly created session record, as it stands when `start_agent`
enters its `try` block. -/
def rowFresh : RequestRow :=
  freshRequestRow "agent--20250101-120000" "proj" "goal" "t0"

/-- C4, counterexample.  In the package layout an exception raised by the
image build — i.e. before the agent container is created — does not
propagate to the caller: it is absorbed into `AGENT_COMPLETE` / exit `-1`
with the exception text, exactly the treatment the claim reserves for
failures during or after container execution. -/
theorem pre_container_error_absorbed_in_package_layout :
    (startAgentPkg "t1" runImageBuildFails rowFresh).raised = none ∧
    (startAgentPkg "t1" runImageBuildFails rowFresh).cleanupRan = true ∧
    (startAgentPkg "t1" runImageBuildFails rowFresh).row.diff_status = "AGENT_COMPLETE" ∧
    (startAgentPkg "t1" runImageBuildFails rowFresh).row.exit_code = some (-1) ∧
    (startAgentPkg "t1" runImageBuildFails rowFresh).row.error_message =
      some "image build failed" := by
  refine ⟨rfl, rfl, rfl, rfl, rfl⟩

/-- C4, amended.  The caller of the package-layout `start_agent` never
receives an exception and cleanup always runs: every failure from
workspace provisioning through container execution — not only those during
or after container execution — is absorbed as `AGENT_COMPLETE` / exit `-1`
/ exception text; on success the exit code is recorded.  Only the
flat-layout `start_agent` propagates pre-container failures (clone,
settings, images, network, proxy): there they reach the caller with no
status update and no cleanup, while failures inside its `try` block are
absorbed with cleanup run. -/
theorem start_agent_exception_policy (now : String) (i : OrchestrationRun)
    (row : RequestRow) :
    (startAgentPkg now i row).raised = none ∧
    (startAgentPkg now i row).cleanupRan = true ∧
    (startAgentPkg now i row).row =
      (match (do preContainerPhases i; i.createContainer; i.runContainer :
          Except String Int) with
        | .ok code => recordExit now code row
        | .error e => updateRequestStatusRow now "AGENT_COMPLETE" (some (-1)) (some e) row) ∧
    (startAgentFlat now i row) =
      (match preContainerPhases i with
        | .error e => { row := row, raised := some e, cleanupRan := false }
        | .ok _ =>
            match (do i.createContainer; i.runContainer : Except String Int) with
            | .ok code =>
                { row := recordExit now code row, raised := none, cleanupRan := true }
            | .error e =>
                { row := updateRequestStatusRow now "AGENT_COMPLETE" (some (-1)) (some e) row
                  raised := none, cleanupRan := true }) := by
  rcases i with ⟨cw, ss, bi, en, sp, cc, rc⟩
  cases cw <;> cases ss <;> cases bi <;> cases en <;> cases sp <;> cases cc <;>
    cases rc <;> exact ⟨rfl, rfl, rfl, rfl⟩

/-! ## Claim C5: termination of the file-tail producer loop

`tail_log_file` (`src/workspace.py:180`) loops
`while container.status in ['running', 'created']`.  The Docker client's
`container.status` reads the attributes snapshot taken when the container
object was obtained — at creation time, where it is `created` — and the
loop body never refreshes it (no `reload()` call), so the value the guard
tests is a constant of the loop.  The state below carries that cached
value, the read position in the log file, and a sleep counter; one step
either consumes the next line or sleeps 0.1 s. -/

structure TailState where
  cachedStatus : String
  pos : Nat
  sleeps : Nat
  emitted : List String
deriving DecidableEq, Repr

/-- The loop guard: `container.status in ['running', 'created']`, applied
to the cached value. -/
def tailGuard (s : TailState) : Bool :=
  s.cachedStatus == "running" || s.cachedStatus == "created"

/-- One iteration of the loop body: `f.readline()` returns the next line
when one exists (which is formatted and emitted), otherwise the loop
sleeps.  The cached container status is not touched — the body contains no
`reload()`. -/
def tailStep (file : List String) (s : TailState) : TailState :=
  if h : s.pos < file.length then
    { s with pos := s.pos + 1, emitted := s.emitted ++ [file.get ⟨s.pos, h⟩] }
  else
    { s with sleeps := s.sleeps + 1 }

/-- Up to `n` iterations of the tail loop, stopping early if the guard
ever becomes false. -/
def tailRun (file : List String) : Nat → TailState → TailState
  | 0, s => s
  | n + 1, s => if tailGuard s then tailRun file n (tailStep file s) else s

/-- The tail thread's state when the loop is entered: the container object
was snapshotted at `containers.create`, so the cached status is
`created`; the file was seeked to its end. -/
def initTailState (file : List String) : TailState :=
  { cachedStatus := "created", pos := file.length, sleeps := 0, emitted := [] }

lemma tailStep_cachedStatus (file : List String) (s : TailState) :
    (tailStep file s).cachedStatus = s.cachedStatus := by
  unfold tailStep
  split <;> rfl

lemma tailRun_cachedStatus (file : List String) :
    ∀ (n : Nat) (s : TailState), (tailRun file n s).cachedStatus = s.cachedStatus := by
  intro n
  induction n with
  | zero => intro s; rfl
  | succ n ih =>
    intro s
    unfold tailRun
    split
    · rw [ih, tailStep_cachedStatus]
    · rfl

/-- C5: the loop guard never becomes false.  However many iterations run —
in particular for a log file that is never written to, where every
iteration sleeps — the cached container status stays `created`, so the
loop condition still holds after the container has exited and after the
orchestrator's `container.wait()` has returned; the loop never terminates
through its condition.  (The sleeping part of the claim is accurate: an
iteration with no new line increments the sleep counter.) -/
lemma tailRun_starved (file : List String) :
    ∀ (n : Nat) (s : TailState), s.cachedStatus = "created" → s.pos = file.length →
      tailRun file n s = { s with sleeps := s.sleeps + n } := by
  intro n
  induction n with
  | zero => intro s _ _; rfl
  | succ n ih =>
    intro s h1 h2
    have hg : tailGuard s = true := by simp [tailGuard, h1]
    have hstep : tailStep file s = { s with sleeps := s.sleeps + 1 } := by
      unfold tailStep
      rw [h2]
      simp
    unfold tailRun
    rw [hg, if_pos rfl, hstep, ih { s with sleeps := s.sleeps + 1 } h1 h2]
    show TailState.mk s.cachedStatus s.pos (s.sleeps + 1 + n) s.emitted =
      TailState.mk s.cachedStatus s.pos (s.sleeps + (n + 1)) s.emitted
    congr 1
    omega

theorem tail_loop_guard_never_false (file : List String) (n : Nat) :
    (tailRun file n (initTailState file)).cachedStatus = "created" ∧
    tailGuard (tailRun file n (initTailState file)) = true ∧
    (tailRun file n (initTailState file)).pos = file.length ∧
    (tailRun file n (initTailState file)).sleeps = n ∧
    (tailStep file (initTailState file)).sleeps = (initTailState file).sleeps + 1 := by
  have hrun := tailRun_starved file n (initTailState file) rfl rfl
  rw [hrun]
  refine ⟨rfl, rfl, rfl, by simp [initTailState], ?_⟩
  unfold tailStep initTailState
  simp

/-! ## Claim C6: the persistence lock

Each write path of the persistence layer is abstracted to the sequence of
lock and store events its body performs: `with self._lock` contributes an
acquire/release bracket, and each SQL statement execution against the
physical store contributes a write event.  `writesLocked` checks that
every write happens at positive lock depth. -/

inductive DbEvent where
  | acquire : DbEvent
  | release : DbEvent
  | write : DbEvent
deriving DecidableEq, Repr

/-- Every `write` in the trace occurs while the lock is held (depth > 0). -/
def writesLocked : List DbEvent → Nat → Bool
  | [], _ => true
  | .acquire :: tl, d => writesLocked tl (d + 1)
  | .release :: tl, d => writesLocked tl (d - 1)
  | .write :: tl, d => decide (0 < d) && writesLocked tl d

/-- `Database.execute` (`src/db.py:29`): `with self._lock:` around connect,
execute, commit. -/
def executeTrace : List DbEvent := [.acquire, .write, .release]

/-- `Database.execute_many` (`src/db.py:40`): same locked shape. -/
def executeManyTrace : List DbEvent := [.acquire, .write, .release]

/-- Flat-layout `AgentDatabase.create_request` (`database.py:73`):
`with self._lock:` around the INSERT. -/
def createRequestFlatTrace : List DbEvent := [.acquire, .write, .release]

/-- Flat-layout `AgentDatabase.log_tool_event` (`database.py:147`): locked
INSERT. -/
def logToolEventFlatTrace : List DbEvent := [.acquire, .write, .release]

/-- `ResultDatabase.save_result` (`src/result_db.py:33`): opens its own
connection via `self._get_connection()` and executes the INSERT OR REPLACE
without ever touching `self._lock`. -/
def saveResultTrace : List DbEvent := [.write]

/-- Package-layout `AgentDatabase.create_agent` (`src/agent_db.py:50`):
INSERT through `self._get_connection()`, no lock. -/
def createAgentTrace : List DbEvent := [.write]

/-- Package-layout `AgentDatabase.update_agent_status`
(`src/agent_db.py:140`): UPDATE through `self._get_connection()`, no
lock. -/
def updateAgentStatusTrace : List DbEvent := [.write]

/-- C6, counterexample.  Two of the persistence layer's write operations —
saving a result and creating a session record in the package layout —
write to the physical store with the lock not held. -/
theorem unlocked_writes_exist :
    writesLocked saveResultTrace 0 = false ∧
    writesLocked createAgentTrace 0 = false ∧
    writesLocked updateAgentStatusTrace 0 = false := by
  decide

/-- C6, amended.  Writes routed through the base `Database.execute` /
`execute_many` helpers, and the flat-layout `AgentDatabase` writers, hold
the store's mutual-exclusion lock for the duration of the write; but
`ResultDatabase.save_result` and the package-layout `AgentDatabase`
writers (`create_agent`, `update_agent_status`) open their own connection
and write with the lock never acquired, so not every reachable write
holds the lock. -/
theorem persistence_lock_discipline :
    writesLocked executeTrace 0 = true ∧
    writesLocked executeManyTrace 0 = true ∧
    writesLocked createRequestFlatTrace 0 = true ∧
    writesLocked logToolEventFlatTrace 0 = true ∧
    writesLocked saveResultTrace 0 = false ∧
    writesLocked createAgentTrace 0 = false ∧
    writesLocked updateAgentStatusTrace 0 = false := by
  decide

/-! ## Claim C7: the document collector

`DocumentCollector.collect` (`src/result_collector.py:85`).  A workspace is
the list of its files with contents.  For explicit targets each pattern is
handled in order: a glob pattern (containing `*`) contributes a labelled
placeholder section when nothing matches — and nothing at all when
something does match, because the matched file list is computed and then
dropped; an exact path contributes a labelled content section when the
file exists and a labelled "was not created" placeholder otherwise.  With
no targets (or an empty target list, by Python truthiness) every `*.md`
file is concatenated. -/

def sectionHeader (label : String) : String := "=== " ++ label ++ " ===\n"

/-- Sections contributed by one explicit target pattern. -/
def patternParts (files : List (String × String)) (pat : String) : List String :=
  if pat.data.contains '*' then
    let matched := files.filter fun e => globMatch pat.data e.1.data
    if matched.isEmpty then
      [sectionHeader pat,
       "No files matching pattern '" ++ pat ++ "' were found.\n"]
    else []
  else
    match files.lookup pat with
    | some c => [sectionHeader pat, c ++ "\n"]
    | none =>
        [sectionHeader pat,
         "Target file '" ++ pat ++ "' was not created by the agent.\n"]

/-- Default collection: every markdown file, with a labelled section. -/
def markdownParts (files : List (String × String)) : List String :=
  (files.filter fun e => e.1.endsWith ".md").flatMap fun e =>
    [sectionHeader e.1, e.2 ++ "\n"]

/-- `DocumentCollector.collect`: the returned content string. -/
def documentCollect (files : List (String × String))
    (targets : Option (List String)) : String :=
  let parts := match targets with
    | some ts => if ts.isEmpty then markdownParts files else ts.flatMap (patternParts files)
    | none => markdownParts files
  String.intercalate "\n" parts

/-- C7: the code at the failing input.  In a workspace that does contain
`SPEC.md`, collecting with the glob target `*.md` — a pattern with at
least one match — produces the empty string: no labelled section and no
file content, although the claim promises one labelled section per target
carrying the matched file's content.  The neighbouring branches behave as
claimed: a missing exact target yields an inline "was not created"
placeholder, an existing exact target yields its content, and a glob with
no match yields an inline "No files matching" placeholder, none of them an
exception. -/
theorem document_collector_drops_glob_matches :
    globMatch "*.md".data "SPEC.md".data = true ∧
    documentCollect [("SPEC.md", "# Spec\n")] (some ["*.md"]) = "" ∧
    documentCollect [] (some ["SPEC.md"]) =
      "=== SPEC.md ===\n\nTarget file 'SPEC.md' was not created by the agent.\n" ∧
    documentCollect [("SPEC.md", "# Spec\n")] (some ["SPEC.md"]) =
      "=== SPEC.md ===\n\n# Spec\n\n" ∧
    documentCollect [] (some ["*.md"]) =
      "=== *.md ===\n\nNo files matching pattern '*.md' were found.\n" := by
  refine ⟨by decide, by decide, by decide, by decide, by decide⟩

/-! ## Claim C8: session-name uniqueness

`start_agent` (flat `agent.py:86`) generates the session name as
`f"{label}-{timestamp}"` with
`timestamp = datetime.now().strftime("%Y%m%d-%H%M%S")` — a one-second
granularity rendering, always 15 characters, each calendar field
zero-padded decimal.  `create_request` (flat `database.py:73`) inserts the
record into the `requests` table, whose `agent_name` column is declared
`UNIQUE` (`database.py:37`), so a duplicate name makes the INSERT raise. -/

/-- Decimal digit character, `'0'` + n. -/
def digitChar (n : Nat) : Char := Char.ofNat (48 + n)

/-- Zero-padded two-digit decimal rendering (as `strftime` pads `%m`,
`%d`, `%H`, `%M`, `%S`). -/
def pad2 (n : Nat) : List Char := [digitChar (n / 10), digitChar (n % 10)]

/-- Zero-padded four-digit decimal rendering (as `strftime` pads `%Y`). -/
def pad4 (n : Nat) : List Char := pad2 (n / 100) ++ pad2 (n % 100)

/-- A wall-clock time at one-second granularity. -/
structure Timestamp where
  year : Nat
  month : Nat
  day : Nat
  hour : Nat
  minute : Nat
  second : Nat
deriving DecidableEq, Repr

/-- Field ranges under which the `%Y%m%d-%H%M%S` rendering is faithful
(every real clock reading satisfies them). -/
def Timestamp.Bounded (t : Timestamp) : Prop :=
  t.year < 10000 ∧ t.month < 100 ∧ t.day < 100 ∧
    t.hour < 100 ∧ t.minute < 100 ∧ t.second < 100

/-- Character data of `strftime("%Y%m%d-%H%M%S")`. -/
def fmtData (t : Timestamp) : List Char :=
  pad4 t.year ++ (pad2 t.month ++ (pad2 t.day ++ (['-'] ++
    (pad2 t.hour ++ (pad2 t.minute ++ pad2 t.second)))))

/-- `strftime("%Y%m%d-%H%M%S")` as a string. -/
def fmtTimestamp (t : Timestamp) : String := String.mk (fmtData t)

/-- The generated session name `f"{label}-{timestamp}"`. -/
def genSessionName (label ts : String) : String := label ++ "-" ++ ts

/-- A session-creation event: the human label the caller passed and the
requested goal (two events with different goals are different sessions). -/
structure SessionRequest where
  label : String
  goal : String
deriving DecidableEq, Repr

/-- The name `start_agent` assigns to a creation event happening at
clock time `t`. -/
def sessionNameOf (r : SessionRequest) (t : Timestamp) : String :=
  genSessionName r.label (fmtTimestamp t)

/-- The `agent_name` column of a `requests` table. -/
def requestNames (tbl : List RequestRow) : List String :=
  tbl.map (·.agent_name)

/-- `create_request`: the INSERT succeeds and appends the row unless the
`UNIQUE` constraint on `agent_name` rejects it. -/
def createRequest (tbl : List RequestRow) (row : RequestRow) :
    Except String (List RequestRow) :=
  if (requestNames tbl).contains row.agent_name then
    .error "UNIQUE constraint failed: requests.agent_name"
  else
    .ok (tbl ++ [row])

lemma digitChar_inj :
    ∀ a, a < 10 → ∀ b, b < 10 → digitChar a = digitChar b → a = b := by
  decide

lemma pad2_inj {a b : Nat} (ha : a < 100) (hb : b < 100)
    (h : pad2 a = pad2 b) : a = b := by
  simp only [pad2, List.cons.injEq, and_true] at h
  have h1 := digitChar_inj (a / 10) (by omega) (b / 10) (by omega) h.1
  have h2 := digitChar_inj (a % 10) (by omega) (b % 10) (by omega) h.2
  omega

lemma pad4_inj {a b : Nat} (ha : a < 10000) (hb : b < 10000)
    (h : pad4 a = pad4 b) : a = b := by
  simp only [pad4, pad2, List.cons_append, List.nil_append,
    List.cons.injEq, and_true] at h
  obtain ⟨h1, h2, h3, h4⟩ := h
  have e1 := digitChar_inj _ (by omega) _ (by omega) h1
  have e2 := digitChar_inj _ (by omega) _ (by omega) h2
  have e3 := digitChar_inj _ (by omega) _ (by omega) h3
  have e4 := digitChar_inj _ (by omega) _ (by omega) h4
  omega

lemma fmtData_inj {t1 t2 : Timestamp} (hb1 : t1.Bounded) (hb2 : t2.Bounded)
    (h : fmtData t1 = fmtData t2) : t1 = t2 := by
  obtain ⟨hy1, hmo1, hd1, hh1, hmi1, hs1⟩ := hb1
  obtain ⟨hy2, hmo2, hd2, hh2, hmi2, hs2⟩ := hb2
  unfold fmtData at h
  have s1 := List.append_inj h rfl
  have s2 := List.append_inj s1.2 rfl
  have s3 := List.append_inj s2.2 rfl
  have s4 := List.append_inj s3.2 rfl
  have s5 := List.append_inj s4.2 rfl
  have s6 := List.append_inj s5.2 rfl
  have hyear := pad4_inj hy1 hy2 s1.1
  have hmonth := pad2_inj hmo1 hmo2 s2.1
  have hday := pad2_inj hd1 hd2 s3.1
  have hhour := pad2_inj hh1 hh2 s5.1
  have hminute := pad2_inj hmi1 hmi2 s6.1
  have hsecond := pad2_inj hs1 hs2 s6.2
  cases t1
  cases t2
  simp only [Timestamp.mk.injEq]
  exact ⟨hyear, hmonth, hday, hhour, hminute, hsecond⟩

lemma fmtData_length (t : Timestamp) : (fmtData t).length = 15 := rfl

/-- Clock reading 2025-01-01 12:00:00. -/
def ts2025 : Timestamp := ⟨2025, 1, 1, 12, 0, 0⟩

/-- Two different creation events arriving within the same second. -/
def reqHello : SessionRequest := ⟨"agent", "add hello()"⟩

/-- A second, distinct event reusing the label in that same second. -/
def reqFix : SessionRequest := ⟨"agent", "fix the bug"⟩

/-- C8, counterexample.  Two distinct session-creation events that reuse
the label `agent` within the same wall-clock second are assigned the very
same name — the one-second timestamp does not make the generated name
unique for repeated labels — and the second record creation is then
rejected by the UNIQUE constraint instead of producing a second uniquely
named session. -/
theorem session_name_collision_same_second :
    reqHello ≠ reqFix ∧
    sessionNameOf reqHello ts2025 = sessionNameOf reqFix ts2025 ∧
    fmtTimestamp ts2025 = "20250101-120000" ∧
    createRequest
        [freshRequestRow (sessionNameOf reqHello ts2025) "proj" reqHello.goal "t0"]
        (freshRequestRow (sessionNameOf reqFix ts2025) "proj" reqFix.goal "t0") =
      .error "UNIQUE constraint failed: requests.agent_name" := by
  refine ⟨by decide, rfl, by decide, rfl⟩

/-- C8, amended.  The generated name determines the label and the
creation second: two sessions get the same name only when their labels
coincide and their creation times fall in the same second (so names are
unique whenever labels differ or creation seconds differ); and at most one
record per name ever exists, because the UNIQUE constraint checked at
record creation rejects an insert whose name is present, while a
successful insert preserves distinctness of the stored names. -/
theorem session_name_uniqueness_amended (l1 l2 : String) (t1 t2 : Timestamp)
    (hb1 : t1.Bounded) (hb2 : t2.Bounded)
    (hname : genSessionName l1 (fmtTimestamp t1) = genSessionName l2 (fmtTimestamp t2))
    (tbl : List RequestRow) (row : RequestRow)
    (hnodup : (requestNames tbl).Nodup) :
    (l1 = l2 ∧ t1 = t2) ∧
    (match createRequest tbl row with
      | .ok tbl' => (requestNames tbl').Nodup
      | .error e => e = "UNIQUE constraint failed: requests.agent_name") := by
  constructor
  · have hdata : (genSessionName l1 (fmtTimestamp t1)).data =
        (genSessionName l2 (fmtTimestamp t2)).data := congrArg String.data hname
    simp only [genSessionName, fmtTimestamp, String.data_append] at hdata
    have hsplit := List.append_inj' hdata (by rw [fmtData_length, fmtData_length])
    have hlab := List.append_inj' hsplit.1 rfl
    exact ⟨String.ext hlab.1, fmtData_inj hb1 hb2 hsplit.2⟩
  · cases hc : (requestNames tbl).contains row.agent_name with
    | true =>
      have hm : row.agent_name ∈ requestNames tbl := by simpa using hc
      simp [createRequest, hm]
    | false =>
      have hmem : row.agent_name ∉ requestNames tbl := by simpa using hc
      have happ : requestNames (tbl ++ [row]) =
          requestNames tbl ++ [row.agent_name] := by simp [requestNames]
      simp only [createRequest, hc, Bool.false_eq_true, if_false]
      rw [happ]
      simp [List.nodup_append, hnodup, hmem]

/-- C8 witness: the amended theorem applied to two equal concrete names
(label `agent`, second 2025-01-01 12:00:00) and to a concrete one-row
table receiving a fresh distinct name. -/
theorem session_name_uniqueness_amended_witness :
    (("agent" : String) = "agent" ∧ ts2025 = ts2025) ∧
    (match createRequest
        [freshRequestRow "agent-20250101-120000" "proj" "g1" "t0"]
        (freshRequestRow "other-20250101-120100" "proj" "g2" "t1") with
      | .ok tbl' => (requestNames tbl').Nodup
      | .error e => e = "UNIQUE constraint failed: requests.agent_name") :=
  session_name_uniqueness_amended "agent" "agent" ts2025 ts2025
    ⟨by decide, by decide, by decide, by decide, by decide, by decide⟩
    ⟨by decide, by decide, by decide, by decide, by decide, by decide⟩ rfl
    [freshRequestRow "agent-20250101-120000" "proj" "g1" "t0"]
    (freshRequestRow "other-20250101-120100" "proj" "g2" "t1")
    (by decide)

/-! ## Claim C9: log readback ordering

A stored log row (`logs` table).  `producer` records which of the two
concurrent capture paths appended the row (the file-tail producer or the
container stream producer); the readback queries ignore it.  Timestamps
are the stored TEXT column values, compared as SQLite compares them.
`get_logs_by_agent_name` (`src/log_db.py:69`) filters by `agent_name` and
orders by `timestamp`; the flat-layout `get_agent_logs`
(`database.py:174`) joins on `request_id` and orders by `l.timestamp`.
The `ORDER BY` is embedded as a sort by the timestamp key. -/

structure LogRow where
  agent_name : String
  request_id : Nat
  timestamp : String
  level : String
  message : String
  producer : String
deriving DecidableEq, Repr

/-- Comparison `ORDER BY timestamp` sorts under. -/
def logRowLe (a b : LogRow) : Prop := a.timestamp ≤ b.timestamp

instance : DecidableRel logRowLe := fun a b =>
  inferInstanceAs (Decidable (a.timestamp ≤ b.timestamp))

instance : IsTotal LogRow logRowLe :=
  ⟨fun a b => le_total a.timestamp b.timestamp⟩

instance : IsTrans LogRow logRowLe :=
  ⟨fun _ _ _ hab hbc => le_trans hab hbc⟩

/-- `LogDatabase.get_logs_by_agent_name`: the rows of the given agent, in
`ORDER BY timestamp` order. -/
def getLogsByAgentName (nm : String) (rows : List LogRow) : List LogRow :=
  List.insertionSort logRowLe (rows.filter fun r => r.agent_name == nm)

/-- Flat-layout `AgentDatabase.get_agent_logs`: the rows joined to the
agent's request id, in `ORDER BY l.timestamp` order. -/
def getAgentLogsFlat (rid : Nat) (rows : List LogRow) : List LogRow :=
  List.insertionSort logRowLe (rows.filter fun r => r.request_id == rid)

/-- C9: whatever rows the two producers appended, and in whatever
interleaving, both readback queries return exactly the session's rows
sorted by stored timestamp in non-decreasing order. -/
theorem logs_sorted_by_timestamp (nm : String) (rid : Nat) (rows : List LogRow) :
    List.Sorted logRowLe (getLogsByAgentName nm rows) ∧
    List.Perm (getLogsByAgentName nm rows) (rows.filter fun r => r.agent_name == nm) ∧
    List.Sorted logRowLe (getAgentLogsFlat rid rows) ∧
    List.Perm (getAgentLogsFlat rid rows) (rows.filter fun r => r.request_id == rid) :=
  ⟨List.sorted_insertionSort logRowLe _, List.perm_insertionSort logRowLe _,
   List.sorted_insertionSort logRowLe _, List.perm_insertionSort logRowLe _⟩

/-! ## Claim C10: the two tool-event timestamp writers

Both `log_tool_event` implementations run the same parse attempt on a
supplied ISO-8601 timestamp string (`datetime.fromisoformat` on the input
with `Z` replaced, reformatted on success, `None` on failure or absence);
`parse` abstracts that shared attempt.  They then diverge: the flat layout
(`database.py:147`) always binds a timestamp parameter, substituting the
literal text `"CURRENT_TIMESTAMP"` when the parse produced nothing, so
that string itself is stored; the package layout (`src/log_db.py:41`)
instead omits the timestamp column, so the schema default applies and the
store's current time `now` is stored. -/

/-- Stored timestamp value of the row the flat-layout writer inserts. -/
def storedTimestampFlat (parse : String → Option String) :
    Option String → String
  | none => "CURRENT_TIMESTAMP"
  | some s =>
      match parse s with
      | some f => f
      | none => "CURRENT_TIMESTAMP"

/-- Stored timestamp value of the row the package-layout writer inserts,
where `now` is the store's current time used for the defaulted column. -/
def storedTimestampPkg (parse : String → Option String) (now : String) :
    Option String → String
  | none => now
  | some s =>
      match parse s with
      | some f => f
      | none => now

/-- C10: when the supplied timestamp is absent or fails parsing, the
flat-layout writer stores the literal text `CURRENT_TIMESTAMP` while the
package-layout writer stores the store's current time; parse successes
agree; and on any unparseable input the two writers store different values
whenever the current time is not itself the literal. -/
theorem tool_event_timestamp_divergence (parse : String → Option String)
    (now ts : String) :
    storedTimestampFlat parse none = "CURRENT_TIMESTAMP" ∧
    storedTimestampPkg parse now none = now ∧
    (parse ts = none →
      storedTimestampFlat parse (some ts) = "CURRENT_TIMESTAMP" ∧
      storedTimestampPkg parse now (some ts) = now) ∧
    (∀ f, parse ts = some f →
      storedTimestampFlat parse (some ts) = f ∧
      storedTimestampPkg parse now (some ts) = f) ∧
    (now ≠ "CURRENT_TIMESTAMP" →
      storedTimestampPkg parse now none ≠ storedTimestampFlat parse none) := by
  refine ⟨rfl, rfl, fun hp => ?_, fun f hf => ?_, fun hn => ?_⟩
  · constructor <;> simp [storedTimestampFlat, storedTimestampPkg, hp]
  · constructor <;> simp [storedTimestampFlat, storedTimestampPkg, hf]
  · simpa [storedTimestampFlat, storedTimestampPkg] using hn

/-- C10 witness: a concrete unparseable timestamp string and a concrete
store clock, on which the two writers store different values. -/
theorem tool_event_timestamp_divergence_witness :
    storedTimestampFlat (fun _ => none) none = "CURRENT_TIMESTAMP" ∧
    storedTimestampPkg (fun _ => none) "2025-10-12 00:00:00" none = "2025-10-12 00:00:00" ∧
    (storedTimestampFlat (fun _ => none) (some "not-a-timestamp") = "CURRENT_TIMESTAMP" ∧
      storedTimestampPkg (fun _ => none) "2025-10-12 00:00:00" (some "not-a-timestamp") =
        "2025-10-12 00:00:00") ∧
    storedTimestampPkg (fun _ => none) "2025-10-12 00:00:00" none ≠
      storedTimestampFlat (fun _ => none) none := by
  have h := tool_event_timestamp_divergence (fun _ => none)
    "2025-10-12 00:00:00" "not-a-timestamp"
  exact ⟨h.1, h.2.1, h.2.2.1 rfl, h.2.2.2.2 (by decide)⟩

end AgentSandbox
